import Mathlib

/-!
Verification development for the trading-bot repository.

Shallow embedding of the risk-gated execution core:
* `app/exec/order_router.py` (`OrderRouter`)
* `app/exec/risk_engine.py` (`RiskEngine`)
* `app/paper/risk.py` (`RiskConfig`)
* `app/paper/engine.py` (`PaperEngine`)

Modelling conventions:
* Python floats are modelled as rationals (`ℚ`); all arithmetic in the source
  is elementary (+, -, *, /, abs, max, min, comparisons) and is translated
  verbatim.
* `uuid.uuid4()` is modelled as a fresh-id supply: the router carries a
  counter `nextId` and each call draws a previously unused id.  This captures
  the semantics relied upon by the source (every call yields a fresh id that
  collides with no stored order); in particular the id is *not* derived from
  the order's content.
* Network calls (`_get_last_price`, the Binance REST ticker) are modelled by
  an oracle `venue : String → ℚ` giving the venue's last price per symbol;
  the router additionally counts how often the venue was consulted
  (`venueCalls`), mirroring the fact that the source performs one HTTP fetch
  per call of `_get_last_price`.
* Wall-clock values (`time.time()`) are passed in as explicit arguments.
* The reason strings produced by `pre_trade_check` use f-string
  interpolation in the source; they are modelled by the inductive
  `CheckReason`, one constructor per format string, carrying the interpolated
  data (`tradingHalted` carries the stored halt reason,
  `riskPerTradeExceeded` carries the estimated risk and the limit).
  Halt reasons *stored in state* (`halt_reason`) are kept as the literal
  strings of the source.
-/

namespace TradingBot

/-! ## Order router (`app/exec/order_router.py`) -/

/-- `Side = Literal["buy", "sell"]`. -/
inductive Side
  | buy
  | sell
deriving DecidableEq

/-- `OrderType = Literal["market", "limit", "oco"]`. -/
inductive OrderType
  | market
  | limit
  | oco
deriving DecidableEq

/-- `OrderStatus = Literal["new", "filled", "partially_filled", "rejected", "canceled"]`.
The third constructor is spelled `part_filled` here; it renders the source's
literal `"partially_filled"`. -/
inductive OrderStatus
  | new
  | filled
  | part_filled
  | rejected
  | canceled
deriving DecidableEq

/-- The `Order` dataclass.  `id` is a natural number drawn from the router's
fresh-id supply (see the header comment on the uuid model). -/
structure Order where
  id : ℕ
  symbol : String
  side : Side
  otype : OrderType
  quantity : ℚ
  price : Option ℚ := none
  status : OrderStatus := OrderStatus.new
  filled_quantity : ℚ := 0
  avg_fill_price : Option ℚ := none
  ts_ms : ℕ := 0
  note : Option String := none
deriving DecidableEq

/-- `mode: Literal["paper", "live"]`. -/
inductive Mode
  | paper
  | live
deriving DecidableEq

/-- The mutable state of `OrderRouter`: its mode, the `_orders` dict
(association list keyed by order id), the fresh-id counter standing for the
uuid4 supply, and a count of venue price fetches (`_get_last_price` calls). -/
structure RouterState where
  mode : Mode
  orders : List (ℕ × Order)
  nextId : ℕ
  venueCalls : ℕ
deriving DecidableEq

/-- A freshly constructed router (`OrderRouter(mode)` with an empty `_orders`
dict). -/
def routerInit (mode : Mode) : RouterState :=
  { mode := mode, orders := [], nextId := 0, venueCalls := 0 }

/-- `_normalize_symbol`: upper-case and strip `-` and `/`. -/
def normalize_symbol (symbol : String) : String :=
  (symbol.toUpper.replace ("-") ("")).replace ("/") ("")

/-- Python dict assignment `self._orders[order.id] = order`: replace the
binding if the key is present, else append it. -/
def insertOrder : List (ℕ × Order) → ℕ → Order → List (ℕ × Order)
  | [], i, o => [(i, o)]
  | (j, p) :: rest, i, o =>
      if j = i then (i, o) :: rest else (j, p) :: insertOrder rest i o

/-- Dict lookup `self._orders.get(order_id)`. -/
def findOrder : List (ℕ × Order) → ℕ → Option Order
  | [], _ => none
  | (j, p) :: rest, i => if j = i then some p else findOrder rest i

/-- `OrderRouter.place_market`.  Fetches the venue price (one venue
consultation), creates an order under a fresh uuid, fills it immediately in
paper mode, and stores it. -/
def place_market (venue : String → ℚ) (r : RouterState) (symbol : String)
    (side : Side) (quantity : ℚ) (now : ℕ) : Order × RouterState :=
  let sym := normalize_symbol symbol
  let px := venue sym
  let o : Order :=
    { id := r.nextId
      symbol := sym
      side := side
      otype := OrderType.market
      quantity := quantity
      price := none
      status := if r.mode = Mode.paper then OrderStatus.filled else OrderStatus.new
      filled_quantity := if r.mode = Mode.paper then quantity else 0
      avg_fill_price := if r.mode = Mode.paper then some px else none
      ts_ms := now
      note := if r.mode = Mode.paper then some ("paper fill") else none }
  (o, { r with orders := insertOrder r.orders o.id o
               nextId := r.nextId + 1
               venueCalls := r.venueCalls + 1 })

/-- `OrderRouter.place_limit`.  Creates a `new` limit order, fetches the last
price (one venue consultation), and in paper mode fills it immediately and
fully when the limit condition already holds. -/
def place_limit (venue : String → ℚ) (r : RouterState) (symbol : String)
    (side : Side) (quantity price : ℚ) (now : ℕ) : Order × RouterState :=
  let sym := normalize_symbol symbol
  let o0 : Order :=
    { id := r.nextId
      symbol := sym
      side := side
      otype := OrderType.limit
      quantity := quantity
      price := some price
      status := OrderStatus.new
      ts_ms := now }
  let last := venue sym
  let should_fill :=
    (side = Side.buy ∧ last ≤ price) ∨ (side = Side.sell ∧ last ≥ price)
  let o :=
    if r.mode = Mode.paper ∧ should_fill then
      { o0 with status := OrderStatus.filled
                filled_quantity := quantity
                avg_fill_price := some last
                note := some ("paper limit immediate fill") }
    else o0
  (o, { r with orders := insertOrder r.orders o.id o
               nextId := r.nextId + 1
               venueCalls := r.venueCalls + 1 })

/-- `OrderRouter.place_oco_stub`: stores a `new` oco order under a fresh id;
no venue consultation. -/
def place_oco_stub (r : RouterState) (symbol : String) (side : Side)
    (quantity price : ℚ) (now : ℕ) : ℕ × RouterState :=
  let sym := normalize_symbol symbol
  let o : Order :=
    { id := r.nextId
      symbol := sym
      side := side
      otype := OrderType.oco
      quantity := quantity
      price := some price
      status := OrderStatus.new
      ts_ms := now
      note := some ("OCO stub gespeichert (keine Live-Logik in Step 3/2.1)") }
  (o.id, { r with orders := insertOrder r.orders o.id o
                  nextId := r.nextId + 1 })

/-- The router's public operations, for stating properties over arbitrary
call sequences. -/
inductive RouterOp
  | placeMarketOp (symbol : String) (side : Side) (quantity : ℚ) (now : ℕ)
  | placeLimitOp (symbol : String) (side : Side) (quantity price : ℚ) (now : ℕ)
  | placeOcoOp (symbol : String) (side : Side) (quantity price : ℚ) (now : ℕ)
  | getOrderOp (id : ℕ)
  | listOrdersOp

/-- State effect of one router operation (`get_order` and `list_orders` are
read-only). -/
def routerStep (venue : String → ℚ) (r : RouterState) : RouterOp → RouterState
  | RouterOp.placeMarketOp symbol side quantity now =>
      (place_market venue r symbol side quantity now).2
  | RouterOp.placeLimitOp symbol side quantity price now =>
      (place_limit venue r symbol side quantity price now).2
  | RouterOp.placeOcoOp symbol side quantity price now =>
      (place_oco_stub r symbol side quantity price now).2
  | RouterOp.getOrderOp _ => r
  | RouterOp.listOrdersOp => r

/-- Run a sequence of router operations, each paired with the venue price
oracle in force at the time of that call. -/
def runRouter (r : RouterState) : List ((String → ℚ) × RouterOp) → RouterState
  | [] => r
  | vop :: ops => runRouter (routerStep vop.1 r vop.2) ops

/-! ## Risk engine (`app/exec/risk_engine.py`) -/

/-- The `RiskParams` dataclass. -/
structure RiskParams where
  capital_base_usd : ℚ
  risk_per_trade_bps : ℚ
  daily_loss_cap_bps : ℚ
  max_drawdown_bps : ℚ
  allow_leverage : Bool
  max_leverage : ℚ
deriving DecidableEq

/-- The `RiskState` dataclass. -/
structure RiskState where
  equity_start_usd : ℚ
  equity_usd : ℚ
  day_start_ts : ℚ
  day_start_equity_usd : ℚ
  realized_pnl_today_usd : ℚ
  max_equity_usd : ℚ
  min_equity_usd : ℚ
  trading_halted : Bool
  kill_switch : Bool
  halt_reason : String
deriving DecidableEq

/-- `RiskEngine.__init__`: `now` is `time.time()`, `kill0` the value of the
`KILL_SWITCH` environment flag (default `false`). -/
def riskInit (p : RiskParams) (now : ℚ) (kill0 : Bool) : RiskState :=
  { equity_start_usd := p.capital_base_usd
    equity_usd := p.capital_base_usd
    day_start_ts := now
    day_start_equity_usd := p.capital_base_usd
    realized_pnl_today_usd := 0
    max_equity_usd := p.capital_base_usd
    min_equity_usd := p.capital_base_usd
    trading_halted := false
    kill_switch := kill0
    halt_reason := "" }

/-- `RiskEngine._daily_loss_limit_usd`. -/
def daily_loss_limit_usd (p : RiskParams) (s : RiskState) : ℚ :=
  s.day_start_equity_usd * (p.daily_loss_cap_bps / 10000)

/-- `RiskEngine._max_drawdown_limit_usd`. -/
def max_drawdown_limit_usd (p : RiskParams) (s : RiskState) : ℚ :=
  s.equity_start_usd * (p.max_drawdown_bps / 10000)

/-- `RiskEngine.allowed_risk_per_trade_usd`. -/
def allowed_risk_per_trade_usd (p : RiskParams) (s : RiskState) : ℚ :=
  s.equity_usd * (p.risk_per_trade_bps / 10000)

/-- The deny/allow reason returned by `pre_trade_check`; one constructor per
format string of the source (see the header comment). -/
inductive CheckReason
  | ok
  | killSwitchActive
  | tradingHalted (stored : String)
  | riskPerTradeExceeded (est limit : ℚ)
  | dailyLossCapBreached
  | maxDrawdownBreached
deriving DecidableEq

/-- The literal float tolerance `1e-9` used by the risk-per-trade check. -/
def eps : ℚ := 1 / 1000000000

/-- `RiskEngine.pre_trade_check`: the nested-if cascade of the source,
returning `(allow?, reason)` and mutating nothing. -/
def pre_trade_check (p : RiskParams) (s : RiskState) (est_risk_usd : ℚ) :
    Bool × CheckReason :=
  if s.kill_switch then (false, CheckReason.killSwitchActive)
  else if s.trading_halted then (false, CheckReason.tradingHalted s.halt_reason)
  else
    let limit := allowed_risk_per_trade_usd p s
    if est_risk_usd > limit + eps then
      (false, CheckReason.riskPerTradeExceeded est_risk_usd limit)
    else if s.realized_pnl_today_usd < -(daily_loss_limit_usd p s) then
      (false, CheckReason.dailyLossCapBreached)
    else if s.equity_start_usd - s.equity_usd > max_drawdown_limit_usd p s then
      (false, CheckReason.maxDrawdownBreached)
    else (true, CheckReason.ok)

/-- `RiskEngine.record_fill_pnl`: update equity, today's realized PnL and the
running max/min, then re-check the daily-loss and drawdown limits, each of
which (independently) sets the halt flag and overwrites the halt reason. -/
def record_fill_pnl (p : RiskParams) (s : RiskState) (realized_pnl_usd : ℚ) :
    RiskState :=
  let s1 := { s with equity_usd := s.equity_usd + realized_pnl_usd
                     realized_pnl_today_usd :=
                       s.realized_pnl_today_usd + realized_pnl_usd }
  let s2 := { s1 with max_equity_usd := max s1.max_equity_usd s1.equity_usd
                      min_equity_usd := min s1.min_equity_usd s1.equity_usd }
  let s3 :=
    if s2.realized_pnl_today_usd < -(daily_loss_limit_usd p s2) then
      { s2 with trading_halted := true, halt_reason := "Daily loss cap breached" }
    else s2
  if s3.equity_start_usd - s3.equity_usd > max_drawdown_limit_usd p s3 then
    { s3 with trading_halted := true, halt_reason := "Max drawdown breached" }
  else s3

/-- `RiskEngine.reset_daily`. -/
def reset_daily (s : RiskState) (now : ℚ) : RiskState :=
  { s with day_start_ts := now
           day_start_equity_usd := s.equity_usd
           realized_pnl_today_usd := 0
           trading_halted := false
           halt_reason := "" }

/-- `RiskEngine.set_kill_switch`. -/
def set_kill_switch (s : RiskState) (active : Bool) (reason : String) : RiskState :=
  let s1 := { s with kill_switch := active }
  if active then
    { s1 with trading_halted := true, halt_reason := "KillSwitch: " ++ reason }
  else s1

/-- The risk engine's external operations. -/
inductive RiskOp
  | preTradeCheckOp (est_risk_usd : ℚ)
  | recordFillPnlOp (realized_pnl_usd : ℚ)
  | setKillSwitchOp (active : Bool) (reason : String)
  | resetDailyOp (now : ℚ)

/-- State effect of one risk-engine operation (`pre_trade_check` mutates
nothing in the source, so its state effect is the identity). -/
def riskStep (p : RiskParams) (s : RiskState) : RiskOp → RiskState
  | RiskOp.preTradeCheckOp _ => s
  | RiskOp.recordFillPnlOp pnl => record_fill_pnl p s pnl
  | RiskOp.setKillSwitchOp active reason => set_kill_switch s active reason
  | RiskOp.resetDailyOp now => reset_daily s now

/-- Run a sequence of risk-engine operations. -/
def runRisk (p : RiskParams) (s : RiskState) : List RiskOp → RiskState
  | [] => s
  | op :: ops => runRisk p (riskStep p s op) ops

/-! ## Paper engine (`app/paper/risk.py`, `app/paper/engine.py`) -/

/-- The `RiskConfig` dataclass with its source defaults. -/
structure RiskConfig where
  capital_base_usd : ℚ := 10000
  risk_per_trade_bps : ℚ := 50
  daily_loss_cap_bps : ℚ := 200
  max_drawdown_bps : ℚ := 1000
  max_position_usd : ℚ := 5000
  allow_leverage : Bool := false
  max_leverage : ℚ := 1
deriving DecidableEq

/-- `RiskConfig.daily_loss_cap_usd`. -/
def RiskConfig.daily_loss_cap_usd (c : RiskConfig) : ℚ :=
  c.capital_base_usd * (c.daily_loss_cap_bps / 10000)

/-- `RiskConfig.max_drawdown_usd`. -/
def RiskConfig.max_drawdown_usd (c : RiskConfig) : ℚ :=
  c.capital_base_usd * (c.max_drawdown_bps / 10000)

/-- The `PaperState` dataclass with its source defaults. -/
structure PaperState where
  running : Bool := false
  symbol : String := "BTCUSDT"
  interval_s : ℚ := 1
  threshold_bps : ℚ := 1 / 5
  trade_qty : ℚ := 1 / 1000
  last_price : Option ℚ := none
  last_ts_ms : ℕ := 0
  position_qty : ℚ := 0
  cash_usd : ℚ := 0
  realized_pnl_usd : ℚ := 0
  equity_usd : ℚ := 0
  high_watermark_usd : ℚ := 0
  cum_day_loss_usd : ℚ := 0
  start_equity_usd : ℚ := 0
deriving DecidableEq

/-- Python's `x or y` on floats: `y` when `x == 0` (falsy), else `x`. -/
def orQ (x y : ℚ) : ℚ := if x = 0 then y else x

/-- Python's `o.avg_fill_price or px` on an optional float: `px` when the
value is `None` or `0.0`, else the value. -/
def avgOr (a : Option ℚ) (px : ℚ) : ℚ :=
  match a with
  | none => px
  | some v => if v = 0 then px else v

/-- The `PaperEngine` aggregate: its `PaperState`, its `RiskConfig`, whether
a loop task is alive (`self._task and not self._task.done()`), the
`_loop`-local previous-tick price `px_prev`, and the injected router. -/
structure PaperEngine where
  state : PaperState
  risk : RiskConfig
  task_alive : Bool
  px_prev : Option ℚ
  router : RouterState
deriving DecidableEq

/-- A freshly constructed `PaperEngine` over a fresh paper router. -/
def engineInit : PaperEngine :=
  { state := {}
    risk := {}
    task_alive := false
    px_prev := none
    router := routerInit Mode.paper }

/-- The equity recomputed by `_update_equity`:
`cash + realized_pnl + position × price`. -/
def equityOf (s : PaperState) (px : ℚ) : ℚ :=
  s.cash_usd + s.realized_pnl_usd + s.position_qty * px

/-- `PaperEngine._update_equity`: recompute equity (a `None` price is a
no-op); when `start_equity == 0` first seed `start_equity` and the
high-watermark with the new equity; then raise the high-watermark to
`max(high_watermark, equity)`. -/
def update_equity (s : PaperState) (px : Option ℚ) : PaperState :=
  match px with
  | none => s
  | some px =>
      let equity := equityOf s px
      let s1 := { s with equity_usd := equity }
      let s2 :=
        if s1.start_equity_usd = (0 : ℚ) then
          { s1 with start_equity_usd := equity, high_watermark_usd := equity }
        else s1
      { s2 with high_watermark_usd := max s2.high_watermark_usd equity }

/-- `PaperEngine._risk_blocked`: the paper-side block reasons, in source
order (the source also computes an unused local `start_eq` here, omitted). -/
def risk_blocked (risk : RiskConfig) (s : PaperState) (next_side : Option Side)
    (px : Option ℚ) : Option String :=
  match px with
  | none => some ("no_price")
  | some px =>
      let dd := s.high_watermark_usd - s.equity_usd
      if dd ≥ risk.max_drawdown_usd then some ("max_drawdown")
      else if s.cum_day_loss_usd ≤ -(risk.daily_loss_cap_usd) then
        some ("daily_loss_cap")
      else
        let next_pos :=
          match next_side with
          | some Side.buy => s.position_qty + s.trade_qty
          | some Side.sell => s.position_qty - s.trade_qty
          | none => s.position_qty
        if |next_pos * px| > risk.max_position_usd then some ("max_position")
        else if ¬risk.allow_leverage ∧ s.equity_usd > 0 ∧
                 |next_pos * px| > s.equity_usd * risk.max_leverage then
          some ("leverage")
        else none

/-- The accounting block of `PaperEngine._loop` applied to a fill (lines
158–168): a buy spends cash and increases the position, a sell adds the
proceeds to cash and decreases the position; `realized_pnl_usd` is not
touched (the source comments: PnL vs. notional is implicit via inventory
marking).  The traded quantity is always `state.trade_qty`. -/
def applyFill (s : PaperState) (side : Side) (fill_px : ℚ) : PaperState :=
  match side with
  | Side.buy =>
      { s with cash_usd := s.cash_usd - fill_px * s.trade_qty
               position_qty := s.position_qty + s.trade_qty }
  | Side.sell =>
      let qty := s.trade_qty
      let realized := fill_px * qty
      { s with cash_usd := s.cash_usd + realized
               position_qty := s.position_qty - qty }

/-- One iteration of the `while self.state.running` body of
`PaperEngine._loop`: record the observed price and timestamp, recompute
equity, and — when both a current and a previous price exist — compute
`move_bps = (px − px_prev) / px_prev × 10_000`, trade when
`|move_bps| ≥ threshold_bps` and the paper risk gate does not block, and
finally set `px_prev := px` unconditionally.  `venue` is the router's price
oracle for this iteration. -/
def tick (venue : String → ℚ) (e : PaperEngine) (px : Option ℚ) (now_ms : ℕ) :
    PaperEngine :=
  if e.state.running = false then e
  else
    let s := { e.state with last_price := px, last_ts_ms := now_ms }
    let s := update_equity s px
    let e1 := { e with state := s }
    let e2 :=
      match px, e.px_prev with
      | some p, some pprev =>
          let move_bps := (p - pprev) / pprev * 10000
          if |move_bps| ≥ e1.state.threshold_bps then
            let side := if move_bps > 0 then Side.sell else Side.buy
            match risk_blocked e1.risk e1.state (some side) (some p) with
            | none =>
                let pr := place_market venue e1.router e1.state.symbol side
                  e1.state.trade_qty now_ms
                let fill_px := avgOr pr.1.avg_fill_price p
                let s2 := applyFill e1.state side fill_px
                let s3 := update_equity s2 (some fill_px)
                let dd_today :=
                  s3.equity_usd - orQ s3.start_equity_usd e1.risk.capital_base_usd
                let s4 := { s3 with
                  cum_day_loss_usd := min s3.cum_day_loss_usd dd_today }
                { e1 with state := s4, router := pr.2 }
            | some _ => e1
          else e1
      | _, _ => e1
    { e2 with px_prev := px }

/-- `PaperEngine.stop` (state-level effect): clear the running flag and
cancel the loop task. -/
def stopE (e : PaperEngine) : PaperEngine :=
  { e with state := { e.state with running := false }, task_alive := false }

/-- `PaperEngine.start`: if a loop task is still alive, stop it first; then
install a new `PaperState` carrying the requested configuration, preserving
the accounting fields between runs (with `high_watermark` and `start_equity`
defaulted to `capital_base` when zero, via Python `or`), and start a new loop
task (whose local `px_prev` starts out `None`). -/
def startE (e : PaperEngine) (symbol : String)
    (interval_s threshold_bps trade_qty : ℚ) : PaperEngine :=
  let e := if e.task_alive then stopE e else e
  let st := e.state
  let s : PaperState :=
    { running := true
      symbol := symbol
      interval_s := interval_s
      threshold_bps := threshold_bps
      trade_qty := trade_qty
      last_price := none
      last_ts_ms := 0
      position_qty := st.position_qty
      cash_usd := st.cash_usd
      realized_pnl_usd := st.realized_pnl_usd
      equity_usd := st.equity_usd
      high_watermark_usd := orQ st.high_watermark_usd e.risk.capital_base_usd
      cum_day_loss_usd := st.cum_day_loss_usd
      start_equity_usd := orQ st.start_equity_usd e.risk.capital_base_usd }
  { e with state := s, task_alive := true, px_prev := none }

/-- `PaperEngine.reset_accounting`. -/
def reset_accounting (e : PaperEngine) : PaperEngine :=
  { e with state :=
    { e.state with cash_usd := 0
                   realized_pnl_usd := 0
                   position_qty := 0
                   start_equity_usd := 0
                   high_watermark_usd := 0
                   cum_day_loss_usd := 0
                   equity_usd := 0 } }

/-! ## Spec-side comparison definitions

These definitions follow the specification's words (for refinement and
counterexample statements); they are *not* read off the source. -/

/-- The five deny conditions of `pre_trade_check` in the source's order,
paired with their reasons — the per-trade condition includes the source's
`1e-9` tolerance.  Used to state that the source's nested-if cascade is the
first-match traversal of this list. -/
def denyChecks (p : RiskParams) (s : RiskState) (est : ℚ) :
    List (Bool × CheckReason) :=
  [ (s.kill_switch, CheckReason.killSwitchActive),
    (s.trading_halted, CheckReason.tradingHalted s.halt_reason),
    (decide (est > allowed_risk_per_trade_usd p s + eps),
      CheckReason.riskPerTradeExceeded est (allowed_risk_per_trade_usd p s)),
    (decide (s.realized_pnl_today_usd < -(daily_loss_limit_usd p s)),
      CheckReason.dailyLossCapBreached),
    (decide (s.equity_start_usd - s.equity_usd > max_drawdown_limit_usd p s),
      CheckReason.maxDrawdownBreached) ]

/-- First-match traversal of `denyChecks`: deny with the first matching
reason, allow when none matches. -/
def firstDeny (p : RiskParams) (s : RiskState) (est : ℚ) : Bool × CheckReason :=
  match (denyChecks p s est).find? (fun c => c.1) with
  | some c => (false, c.2)
  | none => (true, CheckReason.ok)

/-- The pre-trade check exactly as the specification words it: reason (3)
fires as soon as the estimated risk *exceeds* `allowed_risk_per_trade`, with
no tolerance. -/
def specPreTradeCheck (p : RiskParams) (s : RiskState) (est : ℚ) :
    Bool × CheckReason :=
  if s.kill_switch then (false, CheckReason.killSwitchActive)
  else if s.trading_halted then (false, CheckReason.tradingHalted s.halt_reason)
  else if est > allowed_risk_per_trade_usd p s then
    (false, CheckReason.riskPerTradeExceeded est (allowed_risk_per_trade_usd p s))
  else if s.realized_pnl_today_usd < -(daily_loss_limit_usd p s) then
    (false, CheckReason.dailyLossCapBreached)
  else if s.equity_start_usd - s.equity_usd > max_drawdown_limit_usd p s then
    (false, CheckReason.maxDrawdownBreached)
  else (true, CheckReason.ok)

/-- The tick signal exactly as the specification words it:
`deviation_bps = (price / anchor − 1) × 10_000` against a persistent anchor;
`≥ +threshold` sells, `≤ −threshold` buys. -/
def specSignalAnchor (threshold anchor price : ℚ) : Option Side :=
  let deviation_bps := (price / anchor - 1) * 10000
  if deviation_bps ≥ threshold then some Side.sell
  else if deviation_bps ≤ -threshold then some Side.buy
  else none

/-! ## Concrete fixtures for counterexamples and witnesses -/

/-- The risk parameters under the source's default environment
(`CAPITAL_BASE_USD=10000`, `RISK_PER_TRADE_BPS=50`, `DAILY_LOSS_CAP_BPS=200`,
`MAX_DRAWDOWN_BPS=1000`). -/
def params0 : RiskParams :=
  { capital_base_usd := 10000
    risk_per_trade_bps := 50
    daily_loss_cap_bps := 200
    max_drawdown_bps := 1000
    allow_leverage := false
    max_leverage := 1 }

/-- A freshly constructed risk state under `params0` (kill switch off). -/
def state0 : RiskState := riskInit params0 0 false

/-- `state0` after equity dropped to 8000: drawdown 2000 exceeds the 1000
drawdown limit. -/
def stateDrawdown : RiskState := { state0 with equity_usd := 8000 }

/-- A constant venue price oracle. -/
def vfix (q : ℚ) : String → ℚ := fun _ => q

end TradingBot

namespace TradingBot

/-! ## Claims -/

/-- C1.  The claim asserts a content-hash `client_order_id` over
`(symbol, side, quantity, idempotency_key)` and a cached idempotent replay on
the second identical submission.  The source's `place_market` takes no
idempotency key, draws a fresh `uuid4` id on every call, and consults the
venue on every call; this counterexample runs two identical submissions on a
fresh paper router and shows the two order ids differ and the venue was
consulted twice. -/
theorem claim_C1_counterexample :
    (place_market (vfix 100) (routerInit Mode.paper) ("BTCUSDT") Side.buy 1 0).1.id ≠
      (place_market (vfix 100)
        (place_market (vfix 100) (routerInit Mode.paper) ("BTCUSDT") Side.buy 1 0).2
        ("BTCUSDT") Side.buy 1 0).1.id ∧
    (place_market (vfix 100)
      (place_market (vfix 100) (routerInit Mode.paper) ("BTCUSDT") Side.buy 1 0).2
      ("BTCUSDT") Side.buy 1 0).2.venueCalls = 2 := by
  decide

/-- C1 (amended).  `place_market` has no idempotency machinery: every call —
including a retry with identical `(symbol, side, quantity)` — creates a fresh
order under a new unique id, consults the venue once more, and (in paper
mode) executes a fresh fill at the venue's current price. -/
theorem claim_C1_amended (venue : String → ℚ) (r : RouterState) (sym : String)
    (side : Side) (qty : ℚ) (n1 n2 : ℕ) (hmode : r.mode = Mode.paper) :
    (place_market venue r sym side qty n1).1.id ≠
      (place_market venue (place_market venue r sym side qty n1).2
        sym side qty n2).1.id ∧
    (place_market venue r sym side qty n1).2.venueCalls = r.venueCalls + 1 ∧
    (place_market venue (place_market venue r sym side qty n1).2
      sym side qty n2).2.venueCalls = r.venueCalls + 2 ∧
    (place_market venue r sym side qty n1).1.status = OrderStatus.filled ∧
    (place_market venue (place_market venue r sym side qty n1).2
      sym side qty n2).1.status = OrderStatus.filled ∧
    (place_market venue r sym side qty n1).1.avg_fill_price =
      some (venue (normalize_symbol sym)) := by
  refine ⟨?_, rfl, rfl, ?_, ?_, ?_⟩ <;> simp [place_market, hmode]

/-- C1 (amended), witness at a concrete input. -/
theorem claim_C1_amended_witness :
    (place_market (vfix 100) (routerInit Mode.paper) ("ETHUSDT") Side.sell 2 5).1.id ≠
      (place_market (vfix 100)
        (place_market (vfix 100) (routerInit Mode.paper) ("ETHUSDT") Side.sell 2 5).2
        ("ETHUSDT") Side.sell 2 6).1.id ∧
    (place_market (vfix 100) (routerInit Mode.paper) ("ETHUSDT") Side.sell 2 5).2.venueCalls =
      (routerInit Mode.paper).venueCalls + 1 ∧
    (place_market (vfix 100)
      (place_market (vfix 100) (routerInit Mode.paper) ("ETHUSDT") Side.sell 2 5).2
      ("ETHUSDT") Side.sell 2 6).2.venueCalls = (routerInit Mode.paper).venueCalls + 2 ∧
    (place_market (vfix 100) (routerInit Mode.paper) ("ETHUSDT") Side.sell 2 5).1.status =
      OrderStatus.filled ∧
    (place_market (vfix 100)
      (place_market (vfix 100) (routerInit Mode.paper) ("ETHUSDT") Side.sell 2 5).2
      ("ETHUSDT") Side.sell 2 6).1.status = OrderStatus.filled ∧
    (place_market (vfix 100) (routerInit Mode.paper) ("ETHUSDT") Side.sell 2 5).1.avg_fill_price =
      some (vfix 100 (normalize_symbol ("ETHUSDT"))) :=
  claim_C1_amended (vfix 100) (routerInit Mode.paper) ("ETHUSDT") Side.sell 2 5 6 rfl

/-- C2.  The claim words deny reason (3) as "estimated risk exceeds
allowed_risk_per_trade"; the source's check is
`est_risk_usd > limit + 1e-9`, a strict tolerance.  At
`est = 50 + 10⁻¹⁰` against an allowed 50 the claim's reading denies with the
per-trade reason while the source allows the trade. -/
theorem claim_C2_counterexample :
    pre_trade_check params0 state0 (50 + 1 / 10000000000) = (true, CheckReason.ok) ∧
    specPreTradeCheck params0 state0 (50 + 1 / 10000000000) =
      (false, CheckReason.riskPerTradeExceeded (50 + 1 / 10000000000) 50) ∧
    (50 + 1 / 10000000000 : ℚ) > allowed_risk_per_trade_usd params0 state0 ∧
    state0.kill_switch = false ∧ state0.trading_halted = false := by
  norm_num [pre_trade_check, specPreTradeCheck, params0, state0, riskInit,
    allowed_risk_per_trade_usd, daily_loss_limit_usd, max_drawdown_limit_usd, eps]

/-- C2 (amended).  `pre_trade_check` evaluates its deny reasons in exactly
the claimed precedence — kill switch, existing halt, per-trade risk, daily
loss cap, max drawdown — returning the first matching reason and
short-circuiting the rest, with the per-trade condition reading
`est > allowed_risk_per_trade + 1e-9` (the source's tolerance) rather than a
bare "exceeds"; and the check has no effect on the risk state. -/
theorem claim_C2_amended (p : RiskParams) (s : RiskState) (est : ℚ) :
    pre_trade_check p s est = firstDeny p s est ∧
    riskStep p s (RiskOp.preTradeCheckOp est) = s := by
  refine ⟨?_, rfl⟩
  by_cases h1 : s.kill_switch <;>
    by_cases h2 : s.trading_halted <;>
      by_cases h3 : est > allowed_risk_per_trade_usd p s + eps <;>
        by_cases h4 : s.realized_pnl_today_usd < -(daily_loss_limit_usd p s) <;>
          by_cases h5 :
            s.equity_start_usd - s.equity_usd > max_drawdown_limit_usd p s <;>
            simp [pre_trade_check, firstDeny, denyChecks, List.find?,
              h1, h2, h3, h4, h5]

/-- The daily-loss breach condition re-evaluated by `record_fill_pnl`,
expressed over the pre-fill state and the fill's PnL (the fill updates
`realized_pnl_today` before the check; `day_start_equity` is unchanged). -/
def dailyBreachAfter (p : RiskParams) (s : RiskState) (pnl : ℚ) : Prop :=
  s.realized_pnl_today_usd + pnl < -(s.day_start_equity_usd * (p.daily_loss_cap_bps / 10000))

/-- The drawdown breach condition re-evaluated by `record_fill_pnl`,
expressed over the pre-fill state and the fill's PnL. -/
def ddBreachAfter (p : RiskParams) (s : RiskState) (pnl : ℚ) : Prop :=
  s.equity_start_usd - (s.equity_usd + pnl) > s.equity_start_usd * (p.max_drawdown_bps / 10000)

instance (p : RiskParams) (s : RiskState) (pnl : ℚ) : Decidable (dailyBreachAfter p s pnl) :=
  inferInstanceAs (Decidable (_ < _))

instance (p : RiskParams) (s : RiskState) (pnl : ℚ) : Decidable (ddBreachAfter p s pnl) :=
  inferInstanceAs (Decidable (_ < _))

/-- Characterization of `record_fill_pnl`: numeric updates, halt flag and
halt reason (the drawdown check runs second and overwrites the daily-loss
reason). -/
theorem record_fill_pnl_spec (p : RiskParams) (s : RiskState) (pnl : ℚ) :
    (record_fill_pnl p s pnl).equity_usd = s.equity_usd + pnl ∧
    (record_fill_pnl p s pnl).realized_pnl_today_usd = s.realized_pnl_today_usd + pnl ∧
    (record_fill_pnl p s pnl).day_start_equity_usd = s.day_start_equity_usd ∧
    (record_fill_pnl p s pnl).equity_start_usd = s.equity_start_usd ∧
    (record_fill_pnl p s pnl).kill_switch = s.kill_switch ∧
    ((record_fill_pnl p s pnl).trading_halted = true ↔
      (s.trading_halted = true ∨ dailyBreachAfter p s pnl ∨ ddBreachAfter p s pnl)) ∧
    (record_fill_pnl p s pnl).halt_reason =
      (if ddBreachAfter p s pnl then "Max drawdown breached"
       else if dailyBreachAfter p s pnl then "Daily loss cap breached"
       else s.halt_reason) := by
  simp only [record_fill_pnl, daily_loss_limit_usd, max_drawdown_limit_usd]
  by_cases h1 : s.realized_pnl_today_usd + pnl <
      -(s.day_start_equity_usd * (p.daily_loss_cap_bps / 10000))
  all_goals first | rw [if_pos h1] | rw [if_neg h1]
  all_goals by_cases h2 : s.equity_start_usd * (p.max_drawdown_bps / 10000) <
      s.equity_start_usd - (s.equity_usd + pnl)
  all_goals first | rw [if_pos h2] | rw [if_neg h2]
  all_goals simp [dailyBreachAfter, ddBreachAfter, h1, h2]

/-- A reachable halted state: `state0` after `set_kill_switch(true, "manual")`. -/
def stateHalt : RiskState := set_kill_switch state0 true ("manual")

/-- C3.  The claim's invariant "`trading_halted` is true whenever
`kill_switch` is true" fails on a reachable state: `reset_daily` clears
`trading_halted` and `halt_reason` but never clears `kill_switch`, so
`set_kill_switch(true, "manual")` followed by `reset_daily()` reaches a
state with `kill_switch = true` and `trading_halted = false`. -/
theorem claim_C3_counterexample :
    (runRisk params0 state0
      [RiskOp.setKillSwitchOp true ("manual"), RiskOp.resetDailyOp 0]).kill_switch = true ∧
    (runRisk params0 state0
      [RiskOp.setKillSwitchOp true ("manual"), RiskOp.resetDailyOp 0]).trading_halted = false := by
  simp [runRisk, riskStep, set_kill_switch, reset_daily, state0, riskInit, params0]

/-- C3 (amended).  Across the risk engine's operations: `trading_halted` is
set by `set_kill_switch(true, ·)` and by any `record_fill_pnl` that triggers
a daily-loss or drawdown breach; once true it persists under
`pre_trade_check`, `record_fill_pnl` and `set_kill_switch` (clearing the
kill switch does not clear the halt), and only `reset_daily` clears it.
However `trading_halted` does *not* track `kill_switch`: after
`set_kill_switch(true, ·); reset_daily()` the state has `kill_switch = true`
with `trading_halted = false` (trades are still denied, via the kill-switch
check of `pre_trade_check`). -/
theorem claim_C3_amended (p : RiskParams) (s : RiskState) (est pnl : ℚ)
    (b : Bool) (reason : String) :
    (riskStep p s (RiskOp.setKillSwitchOp true reason)).trading_halted = true ∧
    (s.trading_halted = true →
      (riskStep p s (RiskOp.preTradeCheckOp est)).trading_halted = true) ∧
    (s.trading_halted = true →
      (riskStep p s (RiskOp.recordFillPnlOp pnl)).trading_halted = true) ∧
    (s.trading_halted = true →
      (riskStep p s (RiskOp.setKillSwitchOp b reason)).trading_halted = true) ∧
    ((dailyBreachAfter p s pnl ∨ ddBreachAfter p s pnl) →
      (record_fill_pnl p s pnl).trading_halted = true) ∧
    (s.kill_switch = true →
      (pre_trade_check p s est) = (false, CheckReason.killSwitchActive)) := by
  refine ⟨?_, ?_, ?_, ?_, ?_, ?_⟩
  · simp [riskStep, set_kill_switch]
  · intro h; simpa [riskStep] using h
  · intro h
    simp only [riskStep]
    exact (record_fill_pnl_spec p s pnl).2.2.2.2.2.1.mpr (Or.inl h)
  · intro h
    cases b <;> simp [riskStep, set_kill_switch, h]
  · intro h
    exact (record_fill_pnl_spec p s pnl).2.2.2.2.2.1.mpr (Or.inr h)
  · intro h; simp [pre_trade_check, h]

/-- C3 (amended), witness at concrete inputs. -/
theorem claim_C3_amended_witness :
    (riskStep params0 state0 (RiskOp.setKillSwitchOp true ("x"))).trading_halted = true ∧
    (riskStep params0 stateHalt (RiskOp.preTradeCheckOp 1)).trading_halted = true ∧
    (riskStep params0 stateHalt (RiskOp.recordFillPnlOp 1)).trading_halted = true ∧
    (riskStep params0 stateHalt (RiskOp.setKillSwitchOp false ("y"))).trading_halted = true ∧
    (record_fill_pnl params0 state0 (-300)).trading_halted = true ∧
    pre_trade_check params0 stateHalt 1 = (false, CheckReason.killSwitchActive) := by
  have hh : stateHalt.trading_halted = true := by
    simp [stateHalt, set_kill_switch]
  have hk : stateHalt.kill_switch = true := by
    simp [stateHalt, set_kill_switch]
  have hd : dailyBreachAfter params0 state0 (-300) := by
    norm_num [dailyBreachAfter, state0, riskInit, params0]
  exact ⟨(claim_C3_amended params0 state0 1 1 false ("x")).1,
    (claim_C3_amended params0 stateHalt 1 1 false ("y")).2.1 hh,
    (claim_C3_amended params0 stateHalt 1 1 false ("y")).2.2.1 hh,
    (claim_C3_amended params0 stateHalt 1 1 false ("y")).2.2.2.1 hh,
    (claim_C3_amended params0 state0 1 (-300) false ("x")).2.2.2.2.1 (Or.inl hd),
    (claim_C3_amended params0 stateHalt 1 1 false ("y")).2.2.2.2.2 hk⟩

/-- C5.  The claim says that once halted, no `record_fill_pnl` changes the
halt reason until a reset.  Counterexample: from the kill-switch-halted state
(reason `"KillSwitch: manual"`), recording a fill of −300 under the default
parameters breaches the 200-unit daily loss cap, and `record_fill_pnl`
overwrites the stored reason with `"Daily loss cap breached"`. -/
theorem claim_C5_counterexample :
    stateHalt.trading_halted = true ∧
    stateHalt.halt_reason = "KillSwitch: manual" ∧
    (record_fill_pnl params0 stateHalt (-300)).halt_reason = "Daily loss cap breached" ∧
    (record_fill_pnl params0 stateHalt (-300)).halt_reason ≠ stateHalt.halt_reason := by
  have hr : (record_fill_pnl params0 stateHalt (-300)).halt_reason =
      "Daily loss cap breached" := by
    norm_num [record_fill_pnl, stateHalt, set_kill_switch, state0, riskInit, params0,
      daily_loss_limit_usd, max_drawdown_limit_usd]
  refine ⟨by simp [stateHalt, set_kill_switch], by simp [stateHalt, set_kill_switch],
    hr, ?_⟩
  rw [hr]
  simp only [stateHalt, set_kill_switch, state0, riskInit, params0]
  decide

/-- C5 (amended).  In a halted state, `record_fill_pnl` keeps
`trading_halted` true, and it leaves `halt_reason` unchanged *unless* the
fill itself triggers a breach, in which case the reason is overwritten: the
drawdown breach writes `"Max drawdown breached"` (checked second, so it takes
precedence), otherwise a daily-loss breach writes
`"Daily loss cap breached"`. -/
theorem claim_C5_amended (p : RiskParams) (s : RiskState) (pnl : ℚ)
    (h : s.trading_halted = true) :
    (record_fill_pnl p s pnl).trading_halted = true ∧
    (record_fill_pnl p s pnl).halt_reason =
      (if ddBreachAfter p s pnl then "Max drawdown breached"
       else if dailyBreachAfter p s pnl then "Daily loss cap breached"
       else s.halt_reason) := by
  exact ⟨(record_fill_pnl_spec p s pnl).2.2.2.2.2.1.mpr (Or.inl h),
    (record_fill_pnl_spec p s pnl).2.2.2.2.2.2⟩

/-- C5 (amended), witness: a breach-free fill in a halted state keeps the
stored reason. -/
theorem claim_C5_amended_witness :
    stateHalt.trading_halted = true ∧
    (record_fill_pnl params0 stateHalt 1).trading_halted = true ∧
    (record_fill_pnl params0 stateHalt 1).halt_reason =
      (if ddBreachAfter params0 stateHalt 1 then "Max drawdown breached"
       else if dailyBreachAfter params0 stateHalt 1 then "Daily loss cap breached"
       else stateHalt.halt_reason) := by
  have hh : stateHalt.trading_halted = true := by simp [stateHalt, set_kill_switch]
  exact ⟨hh, (claim_C5_amended params0 stateHalt 1 hh).1,
    (claim_C5_amended params0 stateHalt 1 hh).2⟩

/-- The per-tick move of `_loop`: `(px − px_prev) / px_prev × 10_000`
(algebraically `(px / px_prev − 1) × 10_000`). -/
def moveBps (pprev p : ℚ) : ℚ := (p - pprev) / pprev * 10000

/-- The candidate side chosen by `_loop`: sell on a positive move, else buy. -/
def candSide (m : ℚ) : Side := if m > 0 then Side.sell else Side.buy

/-- The engine state after the bookkeeping prefix of a tick (record price and
timestamp, recompute equity). -/
def tickedState (e : PaperEngine) (p : ℚ) (now : ℕ) : PaperState :=
  update_equity { e.state with last_price := some p, last_ts_ms := now } (some p)

theorem update_equity_threshold (s : PaperState) (px : Option ℚ) :
    (update_equity s px).threshold_bps = s.threshold_bps := by
  cases px
  · simp [update_equity]
  · simp only [update_equity]
    split_ifs <;> simp

theorem update_equity_trade_qty (s : PaperState) (px : Option ℚ) :
    (update_equity s px).trade_qty = s.trade_qty := by
  cases px
  · simp [update_equity]
  · simp only [update_equity]
    split_ifs <;> simp

theorem update_equity_symbol (s : PaperState) (px : Option ℚ) :
    (update_equity s px).symbol = s.symbol := by
  cases px
  · simp [update_equity]
  · simp only [update_equity]
    split_ifs <;> simp

/-- Engine trace for C4: a loop started with `threshold_bps = 100` observes
prices 100, 100.5, 101.5 on successive ticks (venue quoting the same
prices). -/
def anchorE0 : PaperEngine := startE engineInit ("BTCUSDT") 1 100 (1 / 1000)

def anchorT1 : PaperEngine := tick (vfix 100) anchorE0 (some 100) 0

def anchorT2 : PaperEngine := tick (vfix (201 / 2)) anchorT1 (some (201 / 2)) 1

def anchorT3 : PaperEngine := tick (vfix (203 / 2)) anchorT2 (some (203 / 2)) 2

/-- C4.  The claim asserts a persistent anchor price that changes only on a
fill.  In the source the reference price is the `_loop`-local `px_prev`,
overwritten with the current price on *every* tick.  Trace: threshold
100 bps, prices 100 → 100.5 → 101.5; no order is ever placed (each
consecutive move is under 100 bps), yet the reference advances from 100 to
100.5; against the claimed persistent anchor of 100 the third price is a
150 bps deviation and the spec-side rule mandates a sell. -/
theorem claim_C4_counterexample :
    anchorT1.px_prev = some 100 ∧
    anchorT2.px_prev = some (201 / 2) ∧
    anchorT2.router.nextId = 0 ∧
    anchorT3.router.nextId = 0 ∧
    specSignalAnchor 100 100 (203 / 2) = some Side.sell := by
  norm_num [anchorT3, anchorT2, anchorT1, anchorE0, tick, startE, engineInit, stopE,
    orQ, update_equity, equityOf, risk_blocked, RiskConfig.max_drawdown_usd,
    RiskConfig.daily_loss_cap_usd, routerInit, vfix, specSignalAnchor,
    abs_of_nonneg, abs_of_nonpos]

/-- C4 (amended).  On each tick with a current price `p` and a previous-tick
price `pprev`, the signal is `move_bps = (p − pprev) / pprev × 10_000`
measured against the *previous tick's price*: no order is placed when
`|move_bps|` is under the threshold or when the paper risk gate blocks, and
otherwise exactly one market order is placed with side sell when
`move_bps > 0`, else buy; the reference price is then set to the current
price on every tick — trade, denial, or no signal alike — and is never reset
to a fill price. -/
theorem claim_C4_amended (venue : String → ℚ) (e : PaperEngine) (p pprev : ℚ)
    (now : ℕ) (hrun : e.state.running = true) (hprev : e.px_prev = some pprev) :
    (tick venue e (some p) now).px_prev = some p ∧
    (|moveBps pprev p| < e.state.threshold_bps →
      (tick venue e (some p) now).router = e.router ∧
      (tick venue e (some p) now).state = tickedState e p now) ∧
    (|moveBps pprev p| ≥ e.state.threshold_bps →
      risk_blocked e.risk (tickedState e p now)
        (some (candSide (moveBps pprev p))) (some p) ≠ none →
      (tick venue e (some p) now).router = e.router ∧
      (tick venue e (some p) now).state = tickedState e p now) ∧
    (|moveBps pprev p| ≥ e.state.threshold_bps →
      risk_blocked e.risk (tickedState e p now)
        (some (candSide (moveBps pprev p))) (some p) = none →
      (tick venue e (some p) now).router =
        (place_market venue e.router e.state.symbol (candSide (moveBps pprev p))
          e.state.trade_qty now).2) := by
  obtain ⟨st, rk, ta, pp, ro⟩ := e
  obtain ⟨run, sym, iv, th, tq, lp, lt, pos, cash, rlz, eqy, hwm, cdl, seq⟩ := st
  dsimp only at hrun hprev ⊢
  subst hrun
  subst hprev
  refine ⟨by simp [tick], ?_, ?_, ?_⟩
  · intro h
    have hm : ¬(|moveBps pprev p| ≥ th) := not_le.mpr h
    simp only [tick, tickedState, moveBps, update_equity_threshold] at hm ⊢
    norm_num
    rw [if_neg hm]
    exact ⟨rfl, rfl⟩
  · intro h hb
    simp only [tick, tickedState, moveBps, candSide, update_equity_threshold] at h hb ⊢
    norm_num at h hb ⊢
    rw [if_pos h]
    split
    · next heq => exact absurd heq hb
    · exact ⟨rfl, rfl⟩
  · intro h hb
    simp only [tick, tickedState, moveBps, candSide, update_equity_threshold,
      update_equity_symbol, update_equity_trade_qty] at h hb ⊢
    norm_num at h hb ⊢
    rw [if_pos h, hb]
/-- C4 (amended), witness: the 100 → 100.5 tick of the C4 trace (a 50 bps
move under the 100 bps threshold). -/
theorem claim_C4_amended_witness :
    (tick (vfix (201 / 2)) anchorT1 (some (201 / 2)) 1).px_prev = some (201 / 2) ∧
    (|moveBps 100 (201 / 2)| < anchorT1.state.threshold_bps →
      (tick (vfix (201 / 2)) anchorT1 (some (201 / 2)) 1).router = anchorT1.router ∧
      (tick (vfix (201 / 2)) anchorT1 (some (201 / 2)) 1).state =
        tickedState anchorT1 (201 / 2) 1) ∧
    (|moveBps 100 (201 / 2)| ≥ anchorT1.state.threshold_bps →
      risk_blocked anchorT1.risk (tickedState anchorT1 (201 / 2) 1)
        (some (candSide (moveBps 100 (201 / 2)))) (some (201 / 2)) ≠ none →
      (tick (vfix (201 / 2)) anchorT1 (some (201 / 2)) 1).router = anchorT1.router ∧
      (tick (vfix (201 / 2)) anchorT1 (some (201 / 2)) 1).state =
        tickedState anchorT1 (201 / 2) 1) ∧
    (|moveBps 100 (201 / 2)| ≥ anchorT1.state.threshold_bps →
      risk_blocked anchorT1.risk (tickedState anchorT1 (201 / 2) 1)
        (some (candSide (moveBps 100 (201 / 2)))) (some (201 / 2)) = none →
      (tick (vfix (201 / 2)) anchorT1 (some (201 / 2)) 1).router =
        (place_market (vfix (201 / 2)) anchorT1.router anchorT1.state.symbol
          (candSide (moveBps 100 (201 / 2))) anchorT1.state.trade_qty 1).2) :=
  claim_C4_amended (vfix (201 / 2)) anchorT1 (201 / 2) 100 1
    (by norm_num [anchorT1, anchorE0, tick, startE, engineInit, stopE, orQ,
      update_equity, equityOf, routerInit, vfix])
    (by norm_num [anchorT1, anchorE0, tick, startE, engineInit, stopE, orQ,
      update_equity, equityOf, routerInit, vfix])

/-- C6.  The claim says a drawdown-breached state denies every submission
*with the "max drawdown" reason*, including risk amounts that also exceed
the per-trade limit.  `pre_trade_check` checks the per-trade limit (reason 3)
before the drawdown (reason 5): in `stateDrawdown` (drawdown 2000 over the
1000 limit) a request of estimated risk 1000 is denied with the per-trade
reason, not the drawdown reason. -/
theorem claim_C6_counterexample :
    stateDrawdown.equity_start_usd - stateDrawdown.equity_usd >
      max_drawdown_limit_usd params0 stateDrawdown ∧
    pre_trade_check params0 stateDrawdown 1000 =
      (false, CheckReason.riskPerTradeExceeded 1000 40) := by
  norm_num [pre_trade_check, stateDrawdown, state0, riskInit, params0,
    allowed_risk_per_trade_usd, daily_loss_limit_usd, max_drawdown_limit_usd, eps]

/-- C6 (amended).  In a drawdown-breached state every submission is denied,
for every requested risk size; the reason is `"Max drawdown breached"`
exactly when no earlier-precedence reason (kill switch, existing halt,
per-trade risk, daily loss cap) matches first. -/
theorem claim_C6_amended (p : RiskParams) (s : RiskState) (est : ℚ)
    (hdd : s.equity_start_usd - s.equity_usd > max_drawdown_limit_usd p s) :
    (pre_trade_check p s est).1 = false ∧
    (s.kill_switch = false → s.trading_halted = false →
      ¬(est > allowed_risk_per_trade_usd p s + eps) →
      ¬(s.realized_pnl_today_usd < -(daily_loss_limit_usd p s)) →
      pre_trade_check p s est = (false, CheckReason.maxDrawdownBreached)) := by
  constructor
  · by_cases h1 : s.kill_switch <;>
      by_cases h2 : s.trading_halted <;>
        by_cases h3 : est > allowed_risk_per_trade_usd p s + eps <;>
          by_cases h4 : s.realized_pnl_today_usd < -(daily_loss_limit_usd p s) <;>
            simp [pre_trade_check, h1, h2, h3, h4, hdd]
  · intro h1 h2 h3 h4
    simp [pre_trade_check, h1, h2, h3, h4, hdd]

/-- C6 (amended), witness: `stateDrawdown` with a small request (est. risk
10, under the 40-unit per-trade limit) is denied with the drawdown reason. -/
theorem claim_C6_amended_witness :
    (pre_trade_check params0 stateDrawdown 10).1 = false ∧
    (stateDrawdown.kill_switch = false → stateDrawdown.trading_halted = false →
      ¬((10 : ℚ) > allowed_risk_per_trade_usd params0 stateDrawdown + eps) →
      ¬(stateDrawdown.realized_pnl_today_usd <
          -(daily_loss_limit_usd params0 stateDrawdown)) →
      pre_trade_check params0 stateDrawdown 10 =
        (false, CheckReason.maxDrawdownBreached)) :=
  claim_C6_amended params0 stateDrawdown 10
    (by norm_num [stateDrawdown, state0, riskInit, params0, max_drawdown_limit_usd])

/-- A ledger state long 0.001 BTC bought at 100 (cash −0.1): the next sell
closes the position toward flat. -/
def sLong : PaperState :=
  { engineInit.state with position_qty := 1 / 1000
                          trade_qty := 1 / 1000
                          cash_usd := -(1 / 10) }

/-- C7.  The claim says realized PnL is attributed iff the fill reduces the
position toward flat.  Counterexample: selling the 0.001 position of `sLong`
at 100.3 closes it fully (reduces |position| from 0.001 to 0), the sale
price differs from the 100 cost basis, yet `realized_pnl_usd` is left
unchanged — the loop's accounting never attributes realized PnL. -/
theorem claim_C7_counterexample :
    (applyFill sLong Side.sell (1003 / 10)).position_qty = 0 ∧
    |(applyFill sLong Side.sell (1003 / 10)).position_qty| < |sLong.position_qty| ∧
    (applyFill sLong Side.sell (1003 / 10)).realized_pnl_usd = sLong.realized_pnl_usd ∧
    (applyFill sLong Side.sell (1003 / 10)).realized_pnl_usd = 0 := by
  norm_num [applyFill, sLong, engineInit]

/-- C7 (amended).  Applying a fill updates cash and position as a matched
pair — a sell of the loop's `trade_qty` q at price p sets
`position := position − q` and `cash := cash + p × q`, a buy symmetrically
sets `position := position + q` and `cash := cash − p × q` — and
`realized_pnl_usd` is never changed by a fill (the loop attributes no
realized PnL; inventory is marked to market through the equity
recomputation instead). -/
theorem claim_C7_amended (s : PaperState) (p : ℚ) :
    (applyFill s Side.sell p).position_qty = s.position_qty - s.trade_qty ∧
    (applyFill s Side.sell p).cash_usd = s.cash_usd + p * s.trade_qty ∧
    (applyFill s Side.buy p).position_qty = s.position_qty + s.trade_qty ∧
    (applyFill s Side.buy p).cash_usd = s.cash_usd - p * s.trade_qty ∧
    (applyFill s Side.sell p).realized_pnl_usd = s.realized_pnl_usd ∧
    (applyFill s Side.buy p).realized_pnl_usd = s.realized_pnl_usd := by
  simp [applyFill]

/-- A running engine: loop started with threshold 5 bps. -/
def eRun : PaperEngine := startE engineInit ("BTCUSDT") 1 5 (1 / 1000)

/-- `start` called again while `eRun` is still running, with a different
configuration (threshold 9 bps, quantity 0.002). -/
def eRestart : PaperEngine := startE eRun ("BTCUSDT") 1 9 (2 / 1000)

/-- C8.  The claim says starting an already-running loop is a no-op that
returns the current state without reconfiguring.  The source's `start` stops
the running loop and starts a fresh one with the *new* configuration: after
restarting `eRun` (threshold 5) with threshold 9, the state carries
threshold 9 and quantity 0.002. -/
theorem claim_C8_counterexample :
    eRun.task_alive = true ∧
    eRun.state.running = true ∧
    eRun.state.threshold_bps = 5 ∧
    eRestart.state.threshold_bps = 9 ∧
    eRestart.state.trade_qty = 2 / 1000 ∧
    eRestart.state.threshold_bps ≠ eRun.state.threshold_bps := by
  norm_num [eRestart, eRun, startE, stopE, engineInit, orQ]

/-- C8 (amended).  Calling `start` while a loop is running stops the
existing loop first and then starts a single new loop with the requested
configuration: afterwards exactly one loop is running, carrying the new
symbol/interval/threshold/quantity, with the accounting fields (position,
cash, realized PnL, equity, cumulative day loss) preserved across the
restart, the high-watermark and start-equity re-seeded from `capital_base`
when they were zero, and a fresh (empty) previous-tick price. -/
theorem claim_C8_amended (e : PaperEngine) (sym : String) (i θ q : ℚ)
    (h : e.task_alive = true) :
    (startE e sym i θ q).state.running = true ∧
    (startE e sym i θ q).task_alive = true ∧
    (startE e sym i θ q).state.symbol = sym ∧
    (startE e sym i θ q).state.interval_s = i ∧
    (startE e sym i θ q).state.threshold_bps = θ ∧
    (startE e sym i θ q).state.trade_qty = q ∧
    (startE e sym i θ q).state.position_qty = e.state.position_qty ∧
    (startE e sym i θ q).state.cash_usd = e.state.cash_usd ∧
    (startE e sym i θ q).state.realized_pnl_usd = e.state.realized_pnl_usd ∧
    (startE e sym i θ q).state.equity_usd = e.state.equity_usd ∧
    (startE e sym i θ q).state.cum_day_loss_usd = e.state.cum_day_loss_usd ∧
    (startE e sym i θ q).state.high_watermark_usd =
      orQ e.state.high_watermark_usd e.risk.capital_base_usd ∧
    (startE e sym i θ q).state.start_equity_usd =
      orQ e.state.start_equity_usd e.risk.capital_base_usd ∧
    (startE e sym i θ q).px_prev = none := by
  simp [startE, stopE, h]

/-- C8 (amended), witness: restarting `eRun`. -/
theorem claim_C8_amended_witness :
    (startE eRun ("BTCUSDT") 1 9 (2 / 1000)).state.running = true ∧
    (startE eRun ("BTCUSDT") 1 9 (2 / 1000)).task_alive = true ∧
    (startE eRun ("BTCUSDT") 1 9 (2 / 1000)).state.symbol = "BTCUSDT" ∧
    (startE eRun ("BTCUSDT") 1 9 (2 / 1000)).state.interval_s = 1 ∧
    (startE eRun ("BTCUSDT") 1 9 (2 / 1000)).state.threshold_bps = 9 ∧
    (startE eRun ("BTCUSDT") 1 9 (2 / 1000)).state.trade_qty = 2 / 1000 ∧
    (startE eRun ("BTCUSDT") 1 9 (2 / 1000)).state.position_qty = eRun.state.position_qty ∧
    (startE eRun ("BTCUSDT") 1 9 (2 / 1000)).state.cash_usd = eRun.state.cash_usd ∧
    (startE eRun ("BTCUSDT") 1 9 (2 / 1000)).state.realized_pnl_usd =
      eRun.state.realized_pnl_usd ∧
    (startE eRun ("BTCUSDT") 1 9 (2 / 1000)).state.equity_usd = eRun.state.equity_usd ∧
    (startE eRun ("BTCUSDT") 1 9 (2 / 1000)).state.cum_day_loss_usd =
      eRun.state.cum_day_loss_usd ∧
    (startE eRun ("BTCUSDT") 1 9 (2 / 1000)).state.high_watermark_usd =
      orQ eRun.state.high_watermark_usd eRun.risk.capital_base_usd ∧
    (startE eRun ("BTCUSDT") 1 9 (2 / 1000)).state.start_equity_usd =
      orQ eRun.state.start_equity_usd eRun.risk.capital_base_usd ∧
    (startE eRun ("BTCUSDT") 1 9 (2 / 1000)).px_prev = none :=
  claim_C8_amended eRun ("BTCUSDT") 1 9 (2 / 1000)
    (by norm_num [eRun, startE, stopE, engineInit, orQ])

theorem findOrder_insertOrder_self (l : List (ℕ × Order)) (i : ℕ) (o : Order) :
    findOrder (insertOrder l i o) i = some o := by
  induction l with
  | nil => simp [insertOrder, findOrder]
  | cons hd tl ih =>
      obtain ⟨j, q⟩ := hd
      by_cases h : j = i <;> simp [insertOrder, findOrder, h, ih]

theorem findOrder_insertOrder_ne (l : List (ℕ × Order)) (i k : ℕ) (o : Order)
    (hne : k ≠ i) : findOrder (insertOrder l k o) i = findOrder l i := by
  induction l with
  | nil => simp [insertOrder, findOrder, hne]
  | cons hd tl ih =>
      obtain ⟨j, q⟩ := hd
      by_cases h : j = k <;> by_cases h2 : j = i <;>
        simp_all [insertOrder, findOrder]

/-- Orders already stored under a previously issued (hence smaller) id are
untouched by any further router operation, and issued ids stay below the
fresh-id counter. -/
theorem routerStep_preserves (venue : String → ℚ) (r : RouterState)
    (op : RouterOp) (i : ℕ) (o : Order) (hi : i < r.nextId)
    (h : findOrder r.orders i = some o) :
    findOrder (routerStep venue r op).orders i = some o ∧
    i < (routerStep venue r op).nextId := by
  have hne : r.nextId ≠ i := ne_of_gt hi
  cases op with
  | placeMarketOp sym side qty now =>
      constructor
      · simp only [routerStep, place_market]
        rw [findOrder_insertOrder_ne _ _ _ _ hne]
        exact h
      · simp only [routerStep, place_market]
        omega
  | placeLimitOp sym side qty price now =>
      constructor
      · simp only [routerStep, place_limit, apply_ite Order.id]
        simp only [ite_self]
        rw [findOrder_insertOrder_ne _ _ _ _ hne]
        exact h
      · simp only [routerStep, place_limit]
        omega
  | placeOcoOp sym side qty price now =>
      constructor
      · simp only [routerStep, place_oco_stub]
        rw [findOrder_insertOrder_ne _ _ _ _ hne]
        exact h
      · simp only [routerStep, place_oco_stub]
        omega
  | getOrderOp id => exact ⟨h, hi⟩
  | listOrdersOp => exact ⟨h, hi⟩

theorem runRouter_preserves (r : RouterState)
    (ops : List ((String → ℚ) × RouterOp)) (i : ℕ) (o : Order)
    (hi : i < r.nextId) (h : findOrder r.orders i = some o) :
    findOrder (runRouter r ops).orders i = some o := by
  induction ops generalizing r with
  | nil => exact h
  | cons vop rest ih =>
      exact ih (routerStep vop.1 r vop.2)
        (routerStep_preserves vop.1 r vop.2 i o hi h).2
        (routerStep_preserves vop.1 r vop.2 i o hi h).1

/-- C9.  In the paper path, `place_limit` marks the order `filled` — fully
and at the venue's last price — exactly when the last price already
satisfies the limit condition (`last ≤ limit` for a buy, `last ≥ limit` for
a sell); otherwise its status is `new`; and the stored order is never
modified by any later router operation (no resting-order matching engine),
so an unfilled limit order is never filled later. -/
theorem claim_C9_thm (venue : String → ℚ) (r : RouterState) (sym : String)
    (side : Side) (qty price : ℚ) (now : ℕ) (hmode : r.mode = Mode.paper) :
    ((place_limit venue r sym side qty price now).1.status = OrderStatus.filled ↔
      ((side = Side.buy ∧ venue (normalize_symbol sym) ≤ price) ∨
       (side = Side.sell ∧ venue (normalize_symbol sym) ≥ price))) ∧
    ((place_limit venue r sym side qty price now).1.status = OrderStatus.filled →
      (place_limit venue r sym side qty price now).1.filled_quantity = qty ∧
      (place_limit venue r sym side qty price now).1.avg_fill_price =
        some (venue (normalize_symbol sym))) ∧
    ((place_limit venue r sym side qty price now).1.status = OrderStatus.filled ∨
     (place_limit venue r sym side qty price now).1.status = OrderStatus.new) ∧
    findOrder (place_limit venue r sym side qty price now).2.orders
      (place_limit venue r sym side qty price now).1.id =
      some (place_limit venue r sym side qty price now).1 ∧
    (∀ ops : List ((String → ℚ) × RouterOp),
      findOrder (runRouter (place_limit venue r sym side qty price now).2 ops).orders
        (place_limit venue r sym side qty price now).1.id =
        some (place_limit venue r sym side qty price now).1) := by
  have hfill :
      (place_limit venue r sym side qty price now).1.id = r.nextId := by
    simp only [place_limit, apply_ite Order.id]
    simp [ite_self]
  have hstore :
      findOrder (place_limit venue r sym side qty price now).2.orders
        (place_limit venue r sym side qty price now).1.id =
        some (place_limit venue r sym side qty price now).1 := by
    conv =>
      lhs
      rw [show (place_limit venue r sym side qty price now).2.orders =
        insertOrder r.orders (place_limit venue r sym side qty price now).1.id
          (place_limit venue r sym side qty price now).1 from rfl]
    rw [findOrder_insertOrder_self]
  refine ⟨?_, ?_, ?_, hstore, ?_⟩
  · by_cases hc : (side = Side.buy ∧ venue (normalize_symbol sym) ≤ price) ∨
        (side = Side.sell ∧ venue (normalize_symbol sym) ≥ price) <;>
      simp [place_limit, hmode, hc]
  · intro hf
    by_cases hc : (side = Side.buy ∧ venue (normalize_symbol sym) ≤ price) ∨
        (side = Side.sell ∧ venue (normalize_symbol sym) ≥ price)
    · simp [place_limit, hmode, hc]
    · simp [place_limit, hmode, hc] at hf
  · by_cases hc : (side = Side.buy ∧ venue (normalize_symbol sym) ≤ price) ∨
        (side = Side.sell ∧ venue (normalize_symbol sym) ≥ price) <;>
      simp [place_limit, hmode, hc]
  · intro ops
    refine runRouter_preserves _ ops _ _ ?_ hstore
    rw [hfill]
    simp [place_limit]

/-- C9, witness: a buy limit at 101 with the venue quoting 100 fills
immediately on a fresh paper router and survives a later market-order
submission unchanged. -/
theorem claim_C9_witness :
    ((place_limit (vfix 100) (routerInit Mode.paper) ("BTCUSDT") Side.buy 1 101 0).1.status =
        OrderStatus.filled ↔
      ((Side.buy = Side.buy ∧ vfix 100 (normalize_symbol ("BTCUSDT")) ≤ 101) ∨
       (Side.buy = Side.sell ∧ vfix 100 (normalize_symbol ("BTCUSDT")) ≥ 101))) ∧
    ((place_limit (vfix 100) (routerInit Mode.paper) ("BTCUSDT") Side.buy 1 101 0).1.status =
        OrderStatus.filled →
      (place_limit (vfix 100) (routerInit Mode.paper) ("BTCUSDT") Side.buy 1 101 0).1.filled_quantity = 1 ∧
      (place_limit (vfix 100) (routerInit Mode.paper) ("BTCUSDT") Side.buy 1 101 0).1.avg_fill_price =
        some (vfix 100 (normalize_symbol ("BTCUSDT")))) ∧
    ((place_limit (vfix 100) (routerInit Mode.paper) ("BTCUSDT") Side.buy 1 101 0).1.status =
        OrderStatus.filled ∨
     (place_limit (vfix 100) (routerInit Mode.paper) ("BTCUSDT") Side.buy 1 101 0).1.status =
        OrderStatus.new) ∧
    findOrder (place_limit (vfix 100) (routerInit Mode.paper) ("BTCUSDT") Side.buy 1 101 0).2.orders
      (place_limit (vfix 100) (routerInit Mode.paper) ("BTCUSDT") Side.buy 1 101 0).1.id =
      some (place_limit (vfix 100) (routerInit Mode.paper) ("BTCUSDT") Side.buy 1 101 0).1 ∧
    (∀ ops : List ((String → ℚ) × RouterOp),
      findOrder
        (runRouter (place_limit (vfix 100) (routerInit Mode.paper) ("BTCUSDT") Side.buy 1 101 0).2
          ops).orders
        (place_limit (vfix 100) (routerInit Mode.paper) ("BTCUSDT") Side.buy 1 101 0).1.id =
        some (place_limit (vfix 100) (routerInit Mode.paper) ("BTCUSDT") Side.buy 1 101 0).1) :=
  claim_C9_thm (vfix 100) (routerInit Mode.paper) ("BTCUSDT") Side.buy 1 101 0 rfl

/-- Engine trace for C10: loop started with the defaults
(`capital_base 10000`), then `reset_accounting` while running, then a buy at
99 (1 bps threshold) followed by a drop to 90. -/
def wm1 : PaperEngine := startE engineInit ("BTCUSDT") 1 1 (1 / 1000)

def wm2 : PaperEngine := tick (vfix 100) wm1 (some 100) 0

def wm3 : PaperEngine := reset_accounting wm2

def wm4 : PaperEngine := tick (vfix 100) wm3 (some 100) 1

def wm5 : PaperEngine := tick (vfix 99) wm4 (some 99) 2

def wm6 : PaperEngine := tick (vfix 90) wm5 (some 90) 3

/-- C10.  The claim says each equity recomputation sets the high-watermark
to `max(prior, equity)`, so it never decreases under price updates or fills.
After `reset_accounting` during a running loop, `start_equity` is zero, and
`_update_equity` then *overwrites* the watermark with the new equity: in the
`wm` trace the tick from 99 to 90 (a pure price update — the trade is
blocked by the daily-loss gate, no order is placed) moves the watermark from
0 down to −0.009, which is not `max(0, −0.009)`. -/
theorem claim_C10_counterexample :
    wm5.state.high_watermark_usd = 0 ∧
    wm6.state.high_watermark_usd = -9 / 1000 ∧
    wm6.router.nextId = wm5.router.nextId ∧
    wm6.state.high_watermark_usd < wm5.state.high_watermark_usd ∧
    wm6.state.high_watermark_usd ≠
      max wm5.state.high_watermark_usd wm6.state.equity_usd := by
  norm_num [wm6, wm5, wm4, wm3, wm2, wm1, tick, startE, engineInit, stopE, orQ,
    update_equity, equityOf, risk_blocked, RiskConfig.max_drawdown_usd,
    RiskConfig.daily_loss_cap_usd, routerInit, vfix, reset_accounting,
    applyFill, avgOr, place_market, normalize_symbol, abs_of_nonneg, abs_of_nonpos]

/-- C10 (amended).  When `start_equity ≠ 0`, each equity recomputation sets
the high-watermark to `max(prior, equity)` (monotone); when
`start_equity = 0` (the state `reset_accounting` leaves behind), the
recomputation overwrites both `start_equity` and the watermark with the new
equity, which can decrease the watermark; a `None` price is a no-op; and
`reset_accounting` sets the watermark to zero. -/
theorem claim_C10_amended (e : PaperEngine) (s : PaperState) (px : ℚ) :
    (s.start_equity_usd ≠ 0 →
      (update_equity s (some px)).high_watermark_usd =
        max s.high_watermark_usd (equityOf s px)) ∧
    (s.start_equity_usd = 0 →
      (update_equity s (some px)).high_watermark_usd = equityOf s px) ∧
    update_equity s none = s ∧
    (reset_accounting e).state.high_watermark_usd = 0 := by
  refine ⟨?_, ?_, rfl, rfl⟩ <;> intro h <;> simp [update_equity, equityOf, h]

/-- A ledger already seeded (`start_equity = 10000`, watermark 10000) with
cash 50. -/
def sSeed : PaperState :=
  { engineInit.state with start_equity_usd := 10000
                          high_watermark_usd := 10000
                          cash_usd := 50 }

/-- A post-reset ledger (`start_equity = 0`) holding 0.001 bought at 100. -/
def sZeroNeg : PaperState :=
  { engineInit.state with cash_usd := -(1 / 10), position_qty := 1 / 1000 }

/-- C10 (amended), witness at concrete ledgers. -/
theorem claim_C10_amended_witness :
    (update_equity sSeed (some 100)).high_watermark_usd =
      max sSeed.high_watermark_usd (equityOf sSeed 100) ∧
    (update_equity sZeroNeg (some 90)).high_watermark_usd = equityOf sZeroNeg 90 :=
  ⟨(claim_C10_amended engineInit sSeed 100).1 (by norm_num [sSeed, engineInit]),
   (claim_C10_amended engineInit sZeroNeg 90).2.1 (by norm_num [sZeroNeg, engineInit])⟩

end TradingBot
